import Mathlib

/-!
Shallow embedding of the three static-analysis scripts of the repository
(`analyze_dockerfile.py`, `analyze_compose.py`, `validate_chart.py`).

Conventions of the embedding:
* Python strings are Lean `String`s; the Python string operations used by the
  scripts (`strip`, `startswith`, `lower`, `upper`, `in`, `split`) are
  re-implemented on the underlying character lists so that every definition
  evaluates by kernel reduction.
* The specific regular expressions of `analyze_dockerfile.py` are embedded as
  dedicated decidable matchers with `re.search` semantics (leftmost match,
  alternation tried in source order, greedy character classes).
* Parsed YAML documents are values of the inductive type `Yaml` (mappings are
  association lists with string keys, as produced by `yaml.safe_load` on the
  documents these tools accept).
* Python code that can raise (`TypeError` on `in` over a non-container,
  `AttributeError` on `.get`/`.items`/`.split` of a value lacking the method,
  `KeyError`, ...) is embedded in `Except String`; an `Except.error` value
  models an uncaught Python exception aborting the analysis.
-/

/-! ## Python string primitives -/

/-- Characters stripped by Python `str.strip()` (ASCII whitespace). -/
def isWS (c : Char) : Bool := c == ' ' || c == '\t' || c == '\n' || c == '\r' || c == '\x0b' || c == '\x0c'

/-- Python `s.strip()`. -/
def pyStrip (s : String) : String :=
  String.mk (((s.data.dropWhile isWS).reverse.dropWhile isWS).reverse)

/-- Python `s.startswith(pre)`. -/
def pyStartsWith (s pre : String) : Bool := pre.data.isPrefixOf s.data

/-- Python `s.lower()` (ASCII). -/
def pyLower (s : String) : String := String.mk (s.data.map Char.toLower)

/-- Python `s.upper()` (ASCII). -/
def pyUpper (s : String) : String := String.mk (s.data.map Char.toUpper)

/-- Does `pat` occur as a contiguous sublist of the second argument? -/
def listContains (pat : List Char) : List Char → Bool
  | [] => pat.isEmpty
  | c :: r => pat.isPrefixOf (c :: r) || listContains pat r

/-- Python `pat in s` for strings (substring test). -/
def strContains (s pat : String) : Bool := listContains pat.data s.data

/-- Worker for `pySplit`: `skip` counts separator characters still to be
consumed after a separator match was emitted. -/
def splitCharsAux (sep : List Char) : List Char → Nat → List Char → List (List Char)
  | [], _, acc => [acc.reverse]
  | _ :: rest, skip + 1, acc => splitCharsAux sep rest skip acc
  | c :: rest, 0, acc =>
    if sep.isPrefixOf (c :: rest) then
      acc.reverse :: splitCharsAux sep rest (sep.length - 1) []
    else
      splitCharsAux sep rest 0 (c :: acc)

/-- Python `s.split(sep)` for a non-empty separator. -/
def pySplit (s sep : String) : List String := (splitCharsAux sep.data s.data 0 []).map String.mk

/-- Python `content.split('\n')`, the line decomposition used by the Dockerfile
analyzer. -/
def pyLines (content : String) : List String := pySplit content "\n"

/-- Case-insensitive test that `pat` (given in lowercase) is a prefix of `cs`. -/
def ciPrefixLen (pat : String) (cs : List Char) : Bool :=
  (cs.take pat.length).map Char.toLower == pat.data

/-- Does `p` hold on some suffix of `cs` (the scan of `re.search`)? -/
def searchP (p : List Char → Bool) : List Char → Bool
  | [] => p []
  | c :: r => p (c :: r) || searchP p r

/-- Case-insensitive substring occurrence of `pat` (given in lowercase). -/
def ciContains (pat : String) (cs : List Char) : Bool := searchP (ciPrefixLen pat) cs

/-- Maximal leading run of decimal digits. -/
def digitRun (cs : List Char) : List Char := cs.takeWhile Char.isDigit

/-- Python `int` on a non-empty string of decimal digits. -/
def natOfDigits (ds : List Char) : Nat := ds.foldl (fun n c => n * 10 + (c.toNat - 48)) 0

/-! ## YAML document model and Python dynamic operations -/

/-- Result of `yaml.safe_load` on the documents these tools accept: scalars,
sequences, and mappings with (unique) string keys. -/
inductive Yaml where
  | str (s : String)
  | int (n : Int)
  | bool (b : Bool)
  | null
  | list (xs : List Yaml)
  | map (kvs : List (String × Yaml))

/-- Python `repr` of a YAML value, used inside `str` of containers.  (Escape
sequences inside strings are not reproduced; no theorem depends on this
rendering.) -/
def pyRepr : Yaml → String
  | .str s => "'" ++ s ++ "'"
  | .int n => toString n
  | .bool b => if b then "True" else "False"
  | .null => "None"
  | .list xs => "[" ++ String.intercalate ", " (xs.attach.map (fun x => pyRepr x.1)) ++ "]"
  | .map kvs => "\x7b" ++ String.intercalate ", " (kvs.attach.map (fun kv => "'" ++ kv.1.1 ++ "': " ++ pyRepr kv.1.2)) ++ "\x7d"
termination_by y => sizeOf y
decreasing_by
  · have := List.sizeOf_lt_of_mem x.2; simp; omega
  · rcases kv with ⟨⟨a, b⟩, hm⟩
    have := List.sizeOf_lt_of_mem hm; simp at this ⊢; omega

/-- Python `str` of a YAML value. -/
def pyStr : Yaml → String
  | .str s => s
  | y => pyRepr y

/-- Python truthiness of a YAML value. -/
def pyTruthy : Yaml → Bool
  | .str s => s != ""
  | .int n => n != 0
  | .bool b => b
  | .null => false
  | .list xs => !xs.isEmpty
  | .map kvs => !kvs.isEmpty

/-- Python `k in y` for a string `k`: key test on a dict, membership on a
list, substring test on a string; `TypeError` otherwise. -/
def pyIn (k : String) (y : Yaml) : Except String Bool :=
  match y with
  | .map kvs => .ok (kvs.any (fun kv => kv.1 == k))
  | .list xs => .ok (xs.any (fun x => match x with | .str s => s == k | _ => false))
  | .str s => .ok (strContains s k)
  | _ => .error "TypeError: argument of type is not iterable"

/-- Python `y[k]` for a string key: dict lookup, `KeyError` when absent,
`TypeError` on any non-dict value. -/
def pyGetItem (y : Yaml) (k : String) : Except String Yaml :=
  match y with
  | .map kvs =>
    match kvs.find? (fun kv => kv.1 == k) with
    | some kv => .ok kv.2
    | none => .error ("KeyError: " ++ k)
  | _ => .error "TypeError: value is not subscriptable with a string key"

/-- Python `y.get(k)`: `AttributeError` on a non-dict value. -/
def pyGet (y : Yaml) (k : String) : Except String (Option Yaml) :=
  match y with
  | .map kvs => .ok ((kvs.find? (fun kv => kv.1 == k)).map (fun kv => kv.2))
  | _ => .error "AttributeError: object has no attribute get"

/-- Python `y.get(k, dflt)`: `AttributeError` on a non-dict value. -/
def pyGetD (y : Yaml) (k : String) (dflt : Yaml) : Except String Yaml :=
  match y with
  | .map kvs => .ok (((kvs.find? (fun kv => kv.1 == k)).map (fun kv => kv.2)).getD dflt)
  | _ => .error "AttributeError: object has no attribute get"

/-- Python `y.items()`: `AttributeError` on a non-dict value. -/
def pyItems (y : Yaml) : Except String (List (String × Yaml)) :=
  match y with
  | .map kvs => .ok kvs
  | _ => .error "AttributeError: object has no attribute items"

/-- Python `for x in y`: elements of a list, keys of a dict, one-character
strings of a string; `TypeError` otherwise. -/
def pyIter (y : Yaml) : Except String (List Yaml) :=
  match y with
  | .list xs => .ok xs
  | .str s => .ok (s.data.map (fun c => .str (String.mk [c])))
  | .map kvs => .ok (kvs.map (fun kv => .str kv.1))
  | _ => .error "TypeError: object is not iterable"

/-- Sequential accumulation of per-item results, aborting (like a Python
`for` loop) at the first item whose processing raises. -/
def collectM {α β : Type} (f : α → Except String (List β)) : List α → Except String (List β)
  | [] => .ok []
  | x :: r => do
    let a ← f x
    let b ← collectM f r
    pure (a ++ b)

/-! ## The Dockerfile analyzer (`analyze_dockerfile.py`) -/

namespace Dockerfile

/-- Issue record of `analyze_dockerfile.py` (line number, severity string,
message, suggestion). -/
structure Issue where
  line_num : Nat
  severity : String
  message : String
  suggestion : String
deriving DecidableEq

/-- Emit `iss` when `c` holds (one conditional `issues.append`). -/
def maybeIss (c : Bool) (iss : Issue) : List Issue := if c then [iss] else []

/-- Character class `[word chars, slash, dash]` of the base-image regex. -/
def isWordChar (c : Char) : Bool := c.isAlphanum || c == '_' || c == '/' || c == '-'

/-- Match of `FROM\s+[word chars, slash, dash]+:latest` (IGNORECASE) anchored at the start of
`cs`:  `from`, then a maximal non-empty whitespace run, then a maximal
non-empty `[word chars, slash, dash]` run, then `:latest`. -/
def fromLatestAt (cs : List Char) : Bool :=
  if ciPrefixLen "from" cs then
    let r1 := cs.drop 4
    if (r1.takeWhile isWS).isEmpty then false
    else
      let r2 := r1.dropWhile isWS
      let w := r2.takeWhile isWordChar
      if w.isEmpty then false
      else ciPrefixLen ":latest" (r2.drop w.length)
  else false

/-- `re.search(r'FROM\s+[word chars, slash, dash]+:latest', s, re.IGNORECASE)` as a Boolean. -/
def matchFromLatest (s : String) : Bool := searchP fromLatestAt s.data

/-- Match of `(ARG|ENV)\s+(.*?(PASSWORD|SECRET|TOKEN|KEY))` (IGNORECASE)
anchored at the start of `cs`. -/
def argEnvSecretAt (cs : List Char) : Bool :=
  (ciPrefixLen "arg" cs || ciPrefixLen "env" cs) &&
  (match cs.drop 3 with
   | [] => false
   | c :: r => isWS c && (["password", "secret", "token", "key"].any (fun w => ciContains w r)))

/-- `re.search` of the ARG/ENV secret pattern. -/
def matchArgEnvSecret (s : String) : Bool := searchP argEnvSecretAt s.data

/-- OS-codename alternatives of the `os_versions` pattern, in source order. -/
def osCodenames : List String := ["bookworm", "bullseye", "buster", "jammy", "focal", "bionic"]

/-- Match of `(bookworm|bullseye|buster|jammy|focal|bionic|alpine:3\.\d+)`
(IGNORECASE) anchored at the start of `cs`, returning the matched text
(original casing, as `match.group(1)` does). -/
def osAt (cs : List Char) : Option String :=
  match osCodenames.find? (fun w => ciPrefixLen w cs) with
  | some w => some (String.mk (cs.take w.length))
  | none =>
    if ciPrefixLen "alpine:3." cs then
      let ds := digitRun (cs.drop 9)
      if ds.isEmpty then none
      else some (String.mk (cs.take (9 + ds.length)))
    else none

/-- Leftmost `re.search` of the `os_versions` pattern, with the text of
group 1. -/
def searchOs : List Char → Option String
  | [] => none
  | c :: r =>
    match osAt (c :: r) with
    | some m => some m
    | none => searchOs r

/-- Match of `-<flag>\s+(\d+)` anchored at the start of `cs`, returning the
value of the digit group. -/
def dashNumAt (flag : Char) (cs : List Char) : Option Nat :=
  match cs with
  | '-' :: c :: r =>
    if c == flag then
      if (r.takeWhile isWS).isEmpty then none
      else
        let ds := digitRun (r.dropWhile isWS)
        if ds.isEmpty then none else some (natOfDigits ds)
    else none
  | _ => none

/-- Earliest occurrence of `-<flag>\s+(\d+)` in `cs` (the lazy `.*?` scan). -/
def searchDashNum (flag : Char) : List Char → Option Nat
  | [] => none
  | c :: r =>
    match dashNumAt flag (c :: r) with
    | some n => some n
    | none => searchDashNum flag r

/-- Leftmost match of `(tool1|tool2).*?-<flag>\s+(\d+)` where both tool names
have length `tlen`, returning the digit group (as `int(match.group(2))`). -/
def searchUserNum (tools : List String) (tlen : Nat) (flag : Char) : List Char → Option Nat
  | [] => none
  | c :: r =>
    if tools.any (fun t => t.data.isPrefixOf (c :: r)) then
      match searchDashNum flag ((c :: r).drop tlen) with
      | some n => some n
      | none => searchUserNum tools tlen flag r
    else searchUserNum tools tlen flag r

/-- `re.search(r'(useradd|adduser).*?-u\s+(\d+)', s)` (case-sensitive). -/
def uidMatch (s : String) : Option Nat := searchUserNum ["useradd", "adduser"] 7 'u' s.data

/-- `re.search(r'(groupadd|addgroup).*?-g\s+(\d+)', s)` (case-sensitive). -/
def gidMatch (s : String) : Option Nat := searchUserNum ["groupadd", "addgroup"] 8 'g' s.data

/-- `re.search(r'(useradd|adduser|groupadd|addgroup)', s)`. -/
def matchUserTool (s : String) : Bool :=
  ["useradd", "adduser", "groupadd", "addgroup"].any (fun t => strContains s t)

/-- `re.search(r'-[ug]\s+\d+', s)`. -/
def matchDashUG (s : String) : Bool :=
  searchP (fun cs =>
    match cs with
    | '-' :: c :: r =>
      (c == 'u' || c == 'g') && !(r.takeWhile isWS).isEmpty && !(digitRun (r.dropWhile isWS)).isEmpty
    | _ => false) s.data

/-- The apt package-index cleanup command looked for by the analyzer. -/
def cleanupPat : String := "rm -rf /var/lib/apt/lists"

/-- Look-ahead of the apt-cleanup check: `any('rm -rf /var/lib/apt/lists' in
lines[j] for j in range(i, min(i+10, len(lines))))` where `i` is the 1-based
number of the current line, i.e. the ten lines following it. -/
def windowClean (lines : List String) (i : Nat) : Bool :=
  ((lines.drop i).take 10).any (fun l => strContains l cleanupPat)

/-- The ADD-instead-of-COPY warning at line `n`. -/
def addIssue (n : Nat) : Issue :=
  ⟨n, "warning", "Using ADD instead of COPY", "Use COPY unless you need URL download or tar extraction"⟩

/-- The floating-`:latest`-tag error at line `n`. -/
def latestIssue (n : Nat) : Issue :=
  ⟨n, "error", "Using :latest tag", "Pin to specific version: alpine:3.19 or SHA256"⟩

/-- The missing-apt-cleanup warning at line `n`. -/
def aptCleanupIssue (n : Nat) : Issue :=
  ⟨n, "warning", "apt-get install without cleanup", "Add: && rm -rf /var/lib/apt/lists/* in same RUN"⟩

/-- The ARG/ENV-secret error at line `n`. -/
def argEnvIssue (n : Nat) : Issue :=
  ⟨n, "error", "Potential secret in ARG/ENV", "Use: RUN --mount=type=secret,id=mysecret"⟩

/-- The pip cache-mount info at line `n`. -/
def pipCacheIssue (n : Nat) : Issue :=
  ⟨n, "info", "pip install without cache mount", "Add: RUN --mount=type=cache,target=/root/.cache/pip"⟩

/-- The npm/yarn cache-mount info at line `n`. -/
def npmCacheIssue (n : Nat) : Issue :=
  ⟨n, "info", "npm/yarn install without cache mount", "Add: RUN --mount=type=cache,target=/root/.npm"⟩

/-- The apt cache-mount info at line `n`. -/
def aptCacheIssue (n : Nat) : Issue :=
  ⟨n, "info", "apt-get without cache mount", "Add: RUN --mount=type=cache,target=/var/cache/apt"⟩

/-- The RUN-cd warning at line `n`. -/
def runCdIssue (n : Nat) : Issue :=
  ⟨n, "warning", "Using RUN cd instead of WORKDIR", "Use: WORKDIR /path"⟩

/-- The OS-version-pin warning at line `n` for matched text `m`. -/
def osIssue (n : Nat) (m : String) : Issue :=
  ⟨n, "warning", "Base image pins OS version (" ++ m ++ ")", "Consider using version tag without OS release (e.g., python:3.12-slim instead of python:3.12-slim-bookworm) for automatic security updates"⟩

/-- The low-UID warning at line `n` for UID `u`. -/
def uidIssue (n : Nat) (u : Nat) : Issue :=
  ⟨n, "warning", "User created with UID " ++ toString u ++ " (< 10000)", "Consider using UID >10000 to avoid conflicts with host system users"⟩

/-- The low-GID warning at line `n` for GID `g`. -/
def gidIssue (n : Nat) (g : Nat) : Issue :=
  ⟨n, "warning", "Group created with GID " ++ toString g ++ " (< 10000)", "Consider using GID >10000 to avoid conflicts with host system users"⟩

/-- The missing-explicit-UID/GID info at line `n`. -/
def noUidIssue (n : Nat) : Issue :=
  ⟨n, "info", "User/group created without explicit UID/GID", "Consider explicit UID/GID >10000 if consistent permissions across environments are needed"⟩

/-- The USER-root warning at line `n`. -/
def userRootIssue (n : Nat) : Issue :=
  ⟨n, "warning", "Running as root user", "Create and use non-root user for security"⟩

/-- Body of the per-line loop of `analyze_dockerfile` for 1-based line number
`i`; each `maybeIss` is one conditional `issues.append`, in source order. -/
def lineIssues (lines : List String) (i : Nat) (line : String) : List Issue :=
  let stripped := pyStrip line
  if stripped == "" || pyStartsWith stripped "#" then []
  else
    maybeIss (pyStartsWith stripped "ADD ") (addIssue i)
    ++ maybeIss (matchFromLatest stripped) (latestIssue i)
    ++ maybeIss (strContains stripped "apt-get install" && !strContains stripped cleanupPat && !windowClean lines i)
      (aptCleanupIssue i)
    ++ maybeIss (matchArgEnvSecret stripped) (argEnvIssue i)
    ++ (if pyStartsWith stripped "RUN " then
          maybeIss (strContains stripped "pip install" && !strContains stripped "--mount=type=cache") (pipCacheIssue i)
          ++ maybeIss ((strContains stripped "npm install" || strContains stripped "yarn install") && !strContains stripped "--mount=type=cache") (npmCacheIssue i)
          ++ maybeIss (strContains stripped "apt-get" && !strContains stripped "--mount=type=cache") (aptCacheIssue i)
        else [])
    ++ maybeIss (pyStartsWith stripped "RUN cd ") (runCdIssue i)
    ++ (if pyStartsWith stripped "FROM " then
          match searchOs stripped.data with
          | some m => [osIssue i m]
          | none => []
        else [])
    ++ (match uidMatch stripped with
        | some uid => maybeIss (decide (uid < 10000)) (uidIssue i uid)
        | none => [])
    ++ (match gidMatch stripped with
        | some gid => maybeIss (decide (gid < 10000)) (gidIssue i gid)
        | none => [])
    ++ maybeIss (matchUserTool stripped && !matchDashUG stripped) (noUidIssue i)
    ++ maybeIss (pyStartsWith stripped "USER root") (userRootIssue i)

/-- The `for i, line in enumerate(lines, 1)` loop: `i` is the number of the
first line of `rest`. -/
def loopFrom (lines : List String) : Nat → List String → List Issue
  | _, [] => []
  | i, l :: rest => lineIssues lines i l ++ loopFrom lines (i + 1) rest

/-- `any(line.strip().startswith('USER ') and 'root' not in line.lower() for
line in lines)`. -/
def hasNonRootUser (lines : List String) : Bool :=
  lines.any (fun l => pyStartsWith (pyStrip l) "USER " && !strContains (pyLower l) "root")

/-- The closing whole-document warning of `analyze_dockerfile`. -/
def noUserIssue (n : Nat) : Issue :=
  ⟨n, "warning", "No non-root USER defined", "Add: RUN adduser -D appuser && USER appuser"⟩

/-- The line-1 warning for a missing BuildKit directive. -/
def directiveIssue : Issue :=
  ⟨1, "warning", "Missing BuildKit syntax directive", "Add: # syntax=docker/dockerfile:1"⟩

/-- `analyze_dockerfile` on the split line list: the BuildKit-directive check
on line 1, the per-line loop, then the whole-document USER check located at
`len(lines)`. -/
def analyzeLines (lines : List String) : List Issue :=
  maybeIss (!pyStartsWith (pyStrip (lines.headD "")) "# syntax=") directiveIssue
  ++ loopFrom lines 1 lines
  ++ maybeIss (!hasNonRootUser lines) (noUserIssue lines.length)

/-- `analyze_dockerfile(content)`; `content.split('\n')` is never empty, so
the `lines[0]` access of the directive check cannot fail. -/
def analyze_dockerfile (content : String) : List Issue := analyzeLines (pyLines content)

/-- Exit code of `main`: `0` for an empty collection (early success return),
otherwise `1 if errors else 0` where `errors` filters severity `'error'`. -/
def exitCode (issues : List Issue) : Nat :=
  if issues.isEmpty then 0
  else if (issues.filter (fun i => i.severity == "error")).isEmpty then 0 else 1

end Dockerfile

/-! ## The Compose analyzer (`analyze_compose.py`) -/

namespace Compose

/-- Issue record of `analyze_compose.py` (location string, severity string,
message, suggestion). -/
structure Issue where
  location : String
  severity : String
  message : String
  suggestion : String
deriving DecidableEq

/-- The deprecated `version:` warning appended at the document root. -/
def versionIssue : Issue :=
  ⟨"Root", "warning", "Deprecated \"version:\" field found",
   "Remove \"version:\" field - it's deprecated since Compose V2. Use Compose Specification instead."⟩

/-- The fatal missing-`services:` error appended at the document root. -/
def noServicesIssue : Issue :=
  ⟨"Root", "error", "No \"services:\" section found",
   "Compose file must have a \"services:\" section"⟩

/-- The secret-shaped name words tested against the upper-cased variable
name. -/
def secretWords : List String := ["PASSWORD", "SECRET", "TOKEN", "KEY", "API_KEY"]

/-- `any(secret_word in key.upper() for secret_word in [...])`. -/
def secretName (key : String) : Bool := secretWords.any (fun w => strContains (pyUpper key) w)

/-- Per-entry body of the environment-variable secret loop: an error is
appended when the name is secret-shaped and the value is truthy and does not
start with `$`; calling `startswith` on a truthy non-string raises. -/
def envItemIssues (location : String) (kv : String × Yaml) : Except String (List Issue) :=
  if secretName kv.1 then
    if pyTruthy kv.2 then
      match kv.2 with
      | .str s =>
        if pyStartsWith s "$" then .ok []
        else .ok [⟨location ++ ".environment." ++ kv.1, "error",
          "Potential secret in environment variable: " ++ kv.1,
          "Use secrets or env_file instead. Never commit secrets to version control."⟩]
      | _ => .error "AttributeError: object has no attribute startswith"
    else .ok []
  else .ok []

/-- The list-form environment entries: `(item.split('=')[0],
item.split('=')[1] if '=' in item else '')`; a non-string item raises at
`split`. -/
def envListItems : List Yaml → Except String (List (String × Yaml))
  | [] => .ok []
  | item :: r => do
    let kv ← match item with
      | Yaml.str s =>
        let parts := pySplit s "="
        Except.ok (parts.headD "", Yaml.str (if strContains s "=" then parts.getD 1 "" else ""))
      | _ => Except.error "AttributeError: object has no attribute split"
    let rest ← envListItems r
    pure (kv :: rest)

/-- Body of the `for service_name, service_config in services.items()` loop of
`analyze_compose`, in source order. -/
def serviceIssues (service_name : String) (service_config : Yaml) : Except String (List Issue) := do
  let location := "services." ++ service_name
  let hasCN ← pyIn "container_name" service_config
  let cnIss ← if hasCN then do
      let v ← pyGetItem service_config "container_name"
      pure [(⟨location, "warning", "Using container_name: \"" ++ pyStr v ++ "\"",
        "Avoid container_name - it prevents scaling with --scale. Let Compose generate names automatically."⟩ : Issue)]
    else pure []
  let hasImg ← pyIn "image" service_config
  let imgIss ← if hasImg then do
      let image ← pyGetItem service_config "image"
      let c1 ← pyIn ":latest" image
      let bad ← if c1 then pure true
        else do
          let c2 ← pyIn ":" image
          pure (!c2)
      if bad then
        pure [(⟨location, "error", "Using :latest or untagged image: \"" ++ pyStr image ++ "\"",
          "Pin to specific version (e.g., myapp:1.2.3) for reproducible deployments"⟩ : Issue)]
      else pure []
    else pure []
  let hasHC ← pyIn "healthcheck" service_config
  let hcIss ← if !hasHC then do
      let hasCmd ← pyIn "command" service_config
      let longIdle ← if !hasCmd then pure false
        else do
          let cmd ← pyGetD service_config "command" (Yaml.str "")
          pure (["sleep", "tail", "watch"].any (fun w => strContains (pyStr cmd) w))
      if !hasCmd || !longIdle then
        pure [(⟨location, "info", "No healthcheck defined",
          "Add healthcheck for better service dependency management"⟩ : Issue)]
      else pure []
    else pure []
  let hasRestart ← pyIn "restart" service_config
  let rsIss := if !hasRestart then
      [(⟨location, "info", "No restart policy defined",
        "Add \"restart: unless-stopped\" or appropriate policy"⟩ : Issue)]
    else []
  let hasEnv ← pyIn "environment" service_config
  let envIss ← if hasEnv then do
      let env_vars ← pyGetItem service_config "environment"
      let env_items ← match env_vars with
        | Yaml.map kvs => Except.ok kvs
        | Yaml.list xs => envListItems xs
        | _ => Except.ok []
      collectM (envItemIssues location) env_items
    else pure []
  let hasDeploy ← pyIn "deploy" service_config
  let noRes ← if !hasDeploy then pure true
    else do
      let d ← pyGetD service_config "deploy" (Yaml.map [])
      let r ← pyIn "resources" d
      pure (!r)
  let resIss := if noRes then
      [(⟨location, "info", "No resource limits defined",
        "Add deploy.resources.limits to prevent resource exhaustion"⟩ : Issue)]
    else []
  let priv ← pyGet service_config "privileged"
  let privIss := if (match priv with | some v => pyTruthy v | none => false) then
      [(⟨location, "warning", "Service runs in privileged mode",
        "Avoid privileged mode unless absolutely necessary for security"⟩ : Issue)]
    else []
  let nm ← pyGet service_config "network_mode"
  let nmIss := if (match nm with | some (Yaml.str s) => s == "host" | _ => false) then
      [(⟨location, "warning", "Using network_mode: host",
        "Prefer bridge networks for better isolation"⟩ : Issue)]
    else []
  pure (cnIss ++ imgIss ++ hcIss ++ rsIss ++ envIss ++ resIss ++ privIss ++ nmIss)

/-- Volume names a service's `volumes` entry contributes to `used_volumes`:
for a string `"name:/path"` the part before the first `:` unless it starts
with `.` or `/`; for a dict, its `source` value. -/
def usedFromVolume (v : Yaml) : List Yaml :=
  match v with
  | .str s =>
    if strContains s ":" then
      let vol_name := (pySplit s ":").headD ""
      if !pyStartsWith vol_name "." && !pyStartsWith vol_name "/" then [.str vol_name] else []
    else []
  | .map kvs =>
    match kvs.find? (fun kv => kv.1 == "source") with
    | some kv => [kv.2]
    | none => []
  | _ => []

/-- The whole-document unused-volumes check.  Python's `set` iteration order
is unspecified; the joined name list here keeps declaration order, which no
theorem depends on. -/
def volumesIssues (compose_data services : Yaml) : Except String (List Issue) := do
  let hasVols ← pyIn "volumes" compose_data
  if hasVols then do
    let vols ← pyGetItem compose_data "volumes"
    let defined ← match vols with
      | Yaml.map kvs => Except.ok (kvs.map (fun kv => kv.1))
      | _ => Except.error "AttributeError: object has no attribute keys"
    let svcCfgs ← match services with
      | Yaml.map kvs => Except.ok (kvs.map (fun kv => kv.2))
      | _ => Except.error "AttributeError: object has no attribute values"
    let used ← collectM (fun cfg => do
        let hv ← pyIn "volumes" cfg
        if hv then do
          let sv ← pyGetItem cfg "volumes"
          let vlist ← pyIter sv
          pure (vlist.map usedFromVolume).flatten
        else pure []) svcCfgs
    let unused := defined.filter (fun d => !(used.any (fun u => match u with | Yaml.str s => s == d | _ => false)))
    if !unused.isEmpty then
      pure [(⟨"volumes", "info", "Unused volumes defined: " ++ String.intercalate ", " unused,
        "Remove unused volume definitions"⟩ : Issue)]
    else pure []
  else pure []

/-- `analyze_compose(compose_data)`: deprecated-version check, fatal
missing-`services` short-circuit, the per-service loop, then the
unused-volumes check. -/
def analyze_compose (compose_data : Yaml) : Except String (List Issue) := do
  let hasVersion ← pyIn "version" compose_data
  let vIss := if hasVersion then [versionIssue] else []
  let hasServices ← pyIn "services" compose_data
  if !hasServices then
    pure (vIss ++ [noServicesIssue])
  else do
    let services ← pyGetItem compose_data "services"
    let items ← pyItems services
    let svcIss ← collectM (fun kv => serviceIssues kv.1 kv.2) items
    let volIss ← volumesIssues compose_data services
    pure (vIss ++ svcIss ++ volIss)

/-- Exit code of `main` after a successful analysis: `0` for an empty
collection (early success return), otherwise `1 if errors else 0`. -/
def exitCode (issues : List Issue) : Nat :=
  if issues.isEmpty then 0
  else if (issues.filter (fun i => i.severity == "error")).isEmpty then 0 else 1

/-- Observable outcome of `main` once the file has been read: a YAML parse
failure is caught and reported (exit 1, no analysis); an uncaught exception
inside `analyze_compose` aborts the process with a traceback and no report;
otherwise the report is rendered with the exit code of `exitCode`. -/
inductive Outcome where
  | parseFailure (detail : String)
  | crash (detail : String)
  | report (issues : List Issue) (exit : Nat)
deriving DecidableEq

/-- The run of `main` on the parse result of the input file. -/
def compose_run (parsed : Except String Yaml) : Outcome :=
  match parsed with
  | .error e => .parseFailure e
  | .ok y =>
    match analyze_compose y with
    | .error f => .crash f
    | .ok issues => .report issues (exitCode issues)

end Compose

/-! ## The Helm chart validator (`validate_chart.py`) -/

namespace Chart

/-- Issue record of `validate_chart.py` (location string, severity string,
message, suggestion). -/
structure Issue where
  location : String
  severity : String
  message : String
  suggestion : String
deriving DecidableEq

/-- The on-disk state of the chart directory as the validator observes it.
File reads and YAML parsing are the external collaborators; a file is either
absent (`none`), present but malformed (`some (.error detail)`), or parsed
(`some (.ok value)`).  `templates/common.yaml` is read as raw text. -/
structure ChartDir where
  chartYaml : Option (Except String Yaml)
  templatesDirExists : Bool
  commonYaml : Option String
  notesTxtExists : Bool
  valuesYaml : Option (Except String Yaml)

/-- Expected repository URL of the bjw-s common library. -/
def commonRepoUrl : String := "https://bjw-s-labs.github.io/helm-charts"

/-- The missing-`Chart.yaml` error. -/
def chartMissingIssue : Issue :=
  ⟨"Chart.yaml", "error", "Chart.yaml not found",
   "Create Chart.yaml with apiVersion, name, version, and dependencies"⟩

/-- The malformed-`Chart.yaml` error (the YAML parser detail is interpolated
into the message). -/
def chartInvalidIssue (e : String) : Issue :=
  ⟨"Chart.yaml", "error", "Invalid YAML: " ++ e, "Fix YAML syntax errors"⟩

/-- The `for dep in deps` scan for the `common` dependency: on the first dep
named `common`, a warning when its repository differs from the expected URL,
and the break; `dep.get` on a non-dict raises. -/
def findCommonDep : List Yaml → Except String (List Issue × Bool)
  | [] => .ok ([], false)
  | dep :: rest => do
    let nm ← pyGet dep "name"
    if (match nm with | some (Yaml.str s) => s == "common" | _ => false) then do
      let repo ← pyGet dep "repository"
      let w := if (match repo with | some (Yaml.str s) => s == commonRepoUrl | _ => false) then ([] : List Issue)
        else [(⟨"Chart.yaml", "warning", "Common library repository URL may be incorrect",
          "Use: " ++ commonRepoUrl⟩ : Issue)]
      pure (w, true)
    else findCommonDep rest

/-- `validate_chart_yaml`: missing file and malformed YAML each yield a single
error and return; otherwise required fields and the common-library dependency
are checked. -/
def validate_chart_yaml (d : ChartDir) : Except String (List Issue) :=
  match d.chartYaml with
  | none => .ok [chartMissingIssue]
  | some (.error e) => .ok [chartInvalidIssue e]
  | some (.ok chart) => do
    let reqIss ← collectM (fun field => do
        let b ← pyIn field chart
        if !b then
          pure [(⟨"Chart.yaml", "error", "Missing required field: " ++ field,
            "Add " ++ field ++ " to Chart.yaml"⟩ : Issue)]
        else pure ([] : List Issue)) ["apiVersion", "name", "version", "type"]
    let hasDeps ← pyIn "dependencies" chart
    let depIss ← if !hasDeps then
        pure [(⟨"Chart.yaml", "error", "No dependencies defined",
          "Add bjw-s common library as dependency"⟩ : Issue)]
      else do
        let deps ← pyGetItem chart "dependencies"
        let dlist ← pyIter deps
        let wf ← findCommonDep dlist
        if !wf.2 then
          pure (wf.1 ++ [(⟨"Chart.yaml", "error", "bjw-s common library not found in dependencies",
            "Add common library dependency"⟩ : Issue)])
        else pure wf.1
    pure (reqIss ++ depIss)

/-- The missing-`templates/` error. -/
def templatesMissingIssue : Issue :=
  ⟨"templates/", "error", "templates directory not found", "Create templates/ directory"⟩

/-- `validate_templates`: directory existence, `common.yaml` presence and its
loader include, `NOTES.txt` presence.  This validator performs no YAML
parsing and cannot raise. -/
def validate_templates (d : ChartDir) : List Issue :=
  if !d.templatesDirExists then [templatesMissingIssue]
  else
    (match d.commonYaml with
     | none => [(⟨"templates/common.yaml", "error", "common.yaml not found",
         "Create templates/common.yaml with: \x7b\x7b- include \"bjw-s.common.loader.all\" . \x7d\x7d"⟩ : Issue)]
     | some content =>
       if !strContains content "bjw-s.common.loader.all" then
         [(⟨"templates/common.yaml", "error", "Missing bjw-s.common.loader.all include",
           "Add: \x7b\x7b- include \"bjw-s.common.loader.all\" . \x7d\x7d"⟩ : Issue)]
       else [])
    ++ (if !d.notesTxtExists then
          [(⟨"templates/NOTES.txt", "info", "NOTES.txt not found",
            "Consider adding NOTES.txt for post-install instructions"⟩ : Issue)]
        else [])

/-- The missing-`values.yaml` error. -/
def valuesMissingIssue : Issue :=
  ⟨"values.yaml", "error", "values.yaml not found", "Create values.yaml with chart configuration"⟩

/-- Per-container body of the containers loop of `validate_values`. -/
def containerIssues (location : String) (kv : String × Yaml) : Except String (List Issue) := do
  let cont_location := location ++ ".containers." ++ kv.1
  let cc := kv.2
  if !pyTruthy cc then
    pure [(⟨cont_location, "error", "Container configuration is empty", "Add image configuration"⟩ : Issue)]
  else do
    let hasImage ← pyIn "image" cc
    let imgIss ← if !hasImage then
        pure [(⟨cont_location, "error", "No image defined", "Add image.repository and image.tag"⟩ : Issue)]
      else do
        let image ← pyGetItem cc "image"
        let hasRepo ← pyIn "repository" image
        let repoIss := if !hasRepo then
            [(⟨cont_location ++ ".image", "error", "Missing image repository", "Add image.repository"⟩ : Issue)]
          else []
        let hasTag ← pyIn "tag" image
        let tagIss ← if !hasTag then
            pure [(⟨cont_location ++ ".image", "warning", "Missing image tag", "Add explicit image.tag (avoid :latest)"⟩ : Issue)]
          else do
            let tv ← pyGet image "tag"
            if (match tv with | some (Yaml.str s) => s == "latest" | _ => false) then
              pure [(⟨cont_location ++ ".image", "warning", "Using :latest tag", "Use specific version tag for reproducibility"⟩ : Issue)]
            else pure []
        pure (repoIss ++ tagIss)
    let hasProbes ← pyIn "probes" cc
    let probeIss ← if hasProbes then do
        let probes ← pyGetItem cc "probes"
        collectM (fun pt => do
            let hasPt ← pyIn pt probes
            if hasPt then do
              let probe ← pyGetItem probes pt
              let en ← pyGet probe "enabled"
              let cust ← pyGet probe "custom"
              if (match en with | some v => pyTruthy v | none => false)
                  && !(match cust with | some v => pyTruthy v | none => false) then do
                let hasType ← pyIn "type" probe
                if !hasType then
                  pure [(⟨cont_location ++ ".probes." ++ pt, "info", "Probe type not specified",
                    "Add type: HTTP, TCP, or EXEC"⟩ : Issue)]
                else pure ([] : List Issue)
              else pure []
            else pure []) ["liveness", "readiness", "startup"]
      else pure []
    pure (imgIss ++ probeIss)

/-- Per-controller body of the controllers loop of `validate_values`. -/
def controllerIssues (kv : String × Yaml) : Except String (List Issue) := do
  let location := "controllers." ++ kv.1
  let cfg := kv.2
  if !pyTruthy cfg then
    pure [(⟨location, "error", "Controller configuration is empty", "Add container definitions"⟩ : Issue)]
  else do
    let hasC ← pyIn "containers" cfg
    if !hasC then
      pure [(⟨location, "error", "No containers defined", "Add at least one container"⟩ : Issue)]
    else do
      let containers ← pyGetItem cfg "containers"
      if !pyTruthy containers then
        pure [(⟨location, "error", "Containers section is empty", "Add at least one container"⟩ : Issue)]
      else do
        let citems ← pyItems containers
        collectM (containerIssues location) citems

/-- Per-entry body of the `service` loop of `validate_values`. -/
def serviceEntryIssues (kv : String × Yaml) : Except String (List Issue) := do
  let location := "service." ++ kv.1
  let svc := kv.2
  let hasCtrl ← pyIn "controller" svc
  let a := if !hasCtrl then
      [(⟨location, "error", "Service does not reference a controller", "Add controller: <controller-name>"⟩ : Issue)]
    else []
  let hasPorts ← pyIn "ports" svc
  let noPorts ← if !hasPorts then pure true
    else do
      let p ← pyGetItem svc "ports"
      pure (!pyTruthy p)
  let b := if noPorts then
      [(⟨location, "error", "Service has no ports defined", "Add at least one port"⟩ : Issue)]
    else []
  pure (a ++ b)

/-- Per-path service-reference check of the ingress loop (`'identifier' not in
svc and 'name' not in svc` with Python's short-circuit). -/
def pathIssues (location : String) (path : Yaml) : Except String (List Issue) := do
  let hasSvc ← pyIn "service" path
  if hasSvc then do
    let svc ← pyGetItem path "service"
    let hasId ← pyIn "identifier" svc
    let noRef ← if hasId then pure false
      else do
        let hn ← pyIn "name" svc
        pure (!hn)
    if noRef then
      pure [(⟨location, "error", "Service reference missing identifier or name",
        "Use identifier: <service-identifier> or name: <service-name>"⟩ : Issue)]
    else pure []
  else pure []

/-- Per-host paths scan of the ingress loop. -/
def hostIssues (location : String) (host : Yaml) : Except String (List Issue) := do
  let hasPaths ← pyIn "paths" host
  if hasPaths then do
    let paths ← pyGetItem host "paths"
    let plist ← pyIter paths
    collectM (pathIssues location) plist
  else pure []

/-- Per-entry body of the `ingress` loop of `validate_values`. -/
def ingressEntryIssues (kv : String × Yaml) : Except String (List Issue) := do
  let ing := kv.2
  let en ← pyGetD ing "enabled" (Yaml.bool true)
  if !pyTruthy en then pure []
  else do
    let location := "ingress." ++ kv.1
    let hasHosts ← pyIn "hosts" ing
    let noHosts ← if !hasHosts then pure true
      else do
        let h ← pyGetItem ing "hosts"
        pure (!pyTruthy h)
    if noHosts then
      pure [(⟨location, "warning", "Ingress has no hosts defined", "Add hosts configuration"⟩ : Issue)]
    else do
      let hosts ← pyGetItem ing "hosts"
      let hlist ← pyIter hosts
      collectM (hostIssues location) hlist

/-- Per-entry body of the `persistence` loop of `validate_values`. -/
def persistenceEntryIssues (kv : String × Yaml) : Except String (List Issue) := do
  let vol := kv.2
  let en ← pyGetD vol "enabled" (Yaml.bool true)
  if !pyTruthy en then pure []
  else do
    let location := "persistence." ++ kv.1
    let hasType ← pyIn "type" vol
    let a := if !hasType then
        [(⟨location, "info", "Persistence type not specified", "Defaults to persistentVolumeClaim"⟩ : Issue)]
      else []
    let vt ← pyGetD vol "type" (Yaml.str "persistentVolumeClaim")
    let b ← if (match vt with | Yaml.str s => s == "persistentVolumeClaim" | _ => false) then do
        let hasEx ← pyIn "existingClaim" vol
        if !hasEx then do
          let hasSize ← pyIn "size" vol
          let s1 := if !hasSize then
              [(⟨location, "error", "PVC has no size specified", "Add size: 1Gi (or use existingClaim)"⟩ : Issue)]
            else []
          let hasAM ← pyIn "accessMode" vol
          let s2 := if !hasAM then
              [(⟨location, "info", "PVC has no accessMode specified", "Defaults to ReadWriteOnce"⟩ : Issue)]
            else []
          pure (s1 ++ s2)
        else pure []
      else pure []
    pure (a ++ b)

/-- `validate_values`: file presence, YAML validity, non-emptiness, the
controllers section, then the `service`, `ingress` and `persistence`
sections. -/
def validate_values (d : ChartDir) : Except String (List Issue) :=
  match d.valuesYaml with
  | none => .ok [valuesMissingIssue]
  | some (.error e) => .ok [(⟨"values.yaml", "error", "Invalid YAML: " ++ e, "Fix YAML syntax errors"⟩ : Issue)]
  | some (.ok values) =>
    if !pyTruthy values then
      .ok [(⟨"values.yaml", "error", "values.yaml is empty", "Add controller configuration"⟩ : Issue)]
    else do
      let hasCtrls ← pyIn "controllers" values
      if !hasCtrls then
        pure [(⟨"values.yaml", "error", "No controllers defined", "Add at least one controller"⟩ : Issue)]
      else do
        let controllers ← pyGetItem values "controllers"
        if !pyTruthy controllers then
          pure [(⟨"values.yaml", "error", "Controllers section is empty", "Add at least one controller"⟩ : Issue)]
        else do
          let citems ← pyItems controllers
          let ctrlIss ← collectM controllerIssues citems
          let hasSvc ← pyIn "service" values
          let svcIss ← if hasSvc then do
              let services ← pyGetItem values "service"
              let sitems ← pyItems services
              collectM serviceEntryIssues sitems
            else pure []
          let hasIng ← pyIn "ingress" values
          let ingIss ← if hasIng then do
              let ings ← pyGetItem values "ingress"
              let iitems ← pyItems ings
              collectM ingressEntryIssues iitems
            else pure []
          let hasPer ← pyIn "persistence" values
          let perIss ← if hasPer then do
              let pers ← pyGetItem values "persistence"
              let pitems ← pyItems pers
              collectM persistenceEntryIssues pitems
            else pure []
          pure (ctrlIss ++ svcIss ++ ingIss ++ perIss)

/-- The collection phase of `main`: the three validators run unconditionally
in sequence and their issue lists are concatenated.  An uncaught exception in
any of them aborts the process. -/
def run_chart (d : ChartDir) : Except String (List Issue) := do
  let a ← validate_chart_yaml d
  let b := validate_templates d
  let c ← validate_values d
  pure (a ++ b ++ c)

/-- Exit code of `main` after collection: `0` for an empty collection (early
success return), otherwise `1 if errors else 0`. -/
def exitCode (issues : List Issue) : Nat :=
  if issues.isEmpty then 0
  else if (issues.filter (fun i => i.severity == "error")).isEmpty then 0 else 1

end Chart

/-! ## Statement vehicles used by the verification below -/

namespace Dockerfile

/-- Condition under which the per-line loop emits `aptCleanupIssue i` for a
line numbered `i`: the stripped line is not empty nor a comment, mentions
`apt-get install`, has no same-line cleanup, and no cleanup occurs in the
ten-line look-ahead window. -/
def aptFires (lines : List String) (i : Nat) (line : String) : Prop :=
  (pyStrip line == "") = false ∧ pyStartsWith (pyStrip line) "#" = false ∧
  strContains (pyStrip line) "apt-get install" = true ∧
  strContains (pyStrip line) cleanupPat = false ∧ windowClean lines i = false

end Dockerfile

namespace Compose

/-- A minimal Compose document with one service `app` carrying a single
environment entry `k: v`. -/
def envDoc (k v : String) : Yaml :=
  Yaml.map [("services", Yaml.map [("app", Yaml.map [("environment", Yaml.map [(k, Yaml.str v)])])])]

/-- The healthcheck info the service `app` of `envDoc` always receives. -/
def hcIssueApp : Issue :=
  ⟨"services.app", "info", "No healthcheck defined", "Add healthcheck for better service dependency management"⟩

/-- The restart-policy info the service `app` of `envDoc` always receives. -/
def rsIssueApp : Issue :=
  ⟨"services.app", "info", "No restart policy defined", "Add \"restart: unless-stopped\" or appropriate policy"⟩

/-- The resource-limits info the service `app` of `envDoc` always receives. -/
def resIssueApp : Issue :=
  ⟨"services.app", "info", "No resource limits defined", "Add deploy.resources.limits to prevent resource exhaustion"⟩

/-- The secret-in-environment error for variable `k` of service `app`. -/
def secretEnvIssue (k : String) : Issue :=
  ⟨"services.app.environment." ++ k, "error", "Potential secret in environment variable: " ++ k,
   "Use secrets or env_file instead. Never commit secrets to version control."⟩

end Compose

/-! ## Reduction helpers -/

@[simp]
theorem ok_bind {α β : Type} (a : α) (f : α → Except String β) :
    (Except.ok a >>= f) = f a := rfl

@[simp]
theorem error_bind {α β : Type} (e : String) (f : α → Except String β) :
    ((Except.error e : Except String α) >>= f) = Except.error e := rfl

@[simp]
theorem pure_ok {α : Type} (a : α) : (pure a : Except String α) = Except.ok a := rfl

theorem mem_maybeIss {x iss : Dockerfile.Issue} {c : Bool} :
    x ∈ Dockerfile.maybeIss c iss ↔ c = true ∧ x = iss := by
  unfold Dockerfile.maybeIss; split <;> simp_all

theorem mem_iteList {α : Type} {c : Prop} [Decidable c] {x : α} {l : List α} :
    x ∈ (if c then l else []) ↔ c ∧ x ∈ l := by
  split <;> simp_all

/-! ## Verification of the claims -/

/-- Helper for C1: the shared `1 if errors else 0` exit computation, as a
function of an arbitrary severity projection. -/
theorem exit_code_aux {α : Type} (sev : α → String) (l : List α) :
    (if l.isEmpty then 0 else if (l.filter (fun i => sev i == "error")).isEmpty then 0 else 1) = 1
      ↔ ∃ i ∈ l, sev i = "error" := by
  by_cases h0 : l.isEmpty
  · rw [if_pos h0]
    simp only [List.isEmpty_iff] at h0
    subst h0
    simp
  · rw [if_neg h0]
    by_cases h1 : (l.filter (fun i => sev i == "error")).isEmpty
    · rw [if_pos h1]
      simp only [List.isEmpty_iff, List.filter_eq_nil_iff, beq_iff_eq] at h1
      constructor
      · intro h01; exact absurd h01 (by omega)
      · rintro ⟨i, hi, hsev⟩; exact absurd hsev (h1 i hi)
    · rw [if_neg h1]
      simp only [List.isEmpty_iff] at h1
      constructor
      · intro _
        rcases List.exists_mem_of_ne_nil _ h1 with ⟨x, hx⟩
        rw [List.mem_filter] at hx
        exact ⟨x, hx.1, by simpa using hx.2⟩
      · intro _; rfl


/-- C1.  For every diagnostic collection, in each of the three tools, the
process exit code computed after rendering is `1` precisely when the
collection contains at least one `'error'`-severity diagnostic; a collection
with only `'warning'`/`'info'` entries, or no entries, exits `0`. -/
theorem c1_exit_code_iff_error
    (di : List Dockerfile.Issue) (ci : List Compose.Issue) (hi : List Chart.Issue) :
    (Dockerfile.exitCode di = 1 ↔ ∃ i ∈ di, i.severity = "error") ∧
    (Compose.exitCode ci = 1 ↔ ∃ i ∈ ci, i.severity = "error") ∧
    (Chart.exitCode hi = 1 ↔ ∃ i ∈ hi, i.severity = "error") :=
  ⟨exit_code_aux (fun i : Dockerfile.Issue => i.severity) di,
   exit_code_aux (fun i : Compose.Issue => i.severity) ci,
   exit_code_aux (fun i : Chart.Issue => i.severity) hi⟩

/-- C5.  Concrete scenario A: on the two-line Dockerfile
`FROM python:latest\nRUN apt-get install -y curl`, the analysis contains the
floating-tag error at line 1, the missing-cleanup warning at line 2, the
missing-cache-mount info at line 2, and the closing no-non-root-USER warning
located at the last line (line 2 of 2); the exit code is 1. -/
theorem c5_scenario_a :
    Dockerfile.analyze_dockerfile "FROM python:latest\nRUN apt-get install -y curl" =
      [Dockerfile.directiveIssue, Dockerfile.latestIssue 1, Dockerfile.aptCleanupIssue 2,
       Dockerfile.aptCacheIssue 2, Dockerfile.noUserIssue 2] ∧
    (pyLines "FROM python:latest\nRUN apt-get install -y curl").length = 2 ∧
    Dockerfile.exitCode
      (Dockerfile.analyze_dockerfile "FROM python:latest\nRUN apt-get install -y curl") = 1 := by
  refine ⟨by decide, by decide, by decide⟩

/-- C2 counterexample.  On the Compose document
`{services: {web: 1}}` the per-service checks raise (`'container_name' in 1`
is a `TypeError`); the exception is not caught, so the run aborts with no
report and no synthetic diagnostic, contradicting the claimed fault
isolation. -/
theorem c2_counterexample :
    Compose.compose_run (Except.ok (Yaml.map [("services", Yaml.map [("web", Yaml.int 1)])])) =
      Compose.Outcome.crash "TypeError: argument of type is not iterable" := rfl

/-- C2 amended.  There is no per-rule fault isolation: any uncaught exception
raised while the checks of `analyze_compose` run propagates out of the
analysis, and `main` (which guards only YAML parsing) aborts with that
exception — no synthetic error diagnostic and no report are produced. -/
theorem c2_rule_fault_aborts (y : Yaml) (msg : String)
    (h : Compose.analyze_compose y = Except.error msg) :
    Compose.compose_run (Except.ok y) = Compose.Outcome.crash msg := by
  simp [Compose.compose_run, h]

/-- Witness for C2 amended at the concrete faulting document. -/
theorem c2_rule_fault_aborts_witness :
    Compose.compose_run (Except.ok (Yaml.map [("services", Yaml.map [("web", Yaml.bool true)])])) =
      Compose.Outcome.crash "TypeError: argument of type is not iterable" :=
  c2_rule_fault_aborts _ _ rfl

/-- C3 counterexample.  The mapping `{version: "3"}` has no `services` key,
yet the analysis returns two diagnostics — the deprecated-version warning is
appended before the missing-services error — contradicting "exactly one
diagnostic ... regardless of any other content (including a version key)". -/
theorem c3_counterexample :
    Compose.analyze_compose (Yaml.map [("version", Yaml.str "3")]) =
      Except.ok [Compose.versionIssue, Compose.noServicesIssue] ∧
    Compose.versionIssue.severity ≠ "error" :=
  ⟨rfl, by decide⟩

/-- C3 amended.  A parsed mapping with no `services` key yields the
root-located missing-services error and short-circuits all per-service and
whole-document checks; the only other possible diagnostic is the
deprecated-version warning, present exactly when a `version` key exists and
preceding the error. -/
theorem c3_no_services_short_circuit (kvs : List (String × Yaml))
    (h : kvs.any (fun kv => kv.1 == "services") = false) :
    Compose.analyze_compose (Yaml.map kvs) =
      Except.ok ((if kvs.any (fun kv => kv.1 == "version") then [Compose.versionIssue] else [])
        ++ [Compose.noServicesIssue]) := by
  simp [Compose.analyze_compose, pyIn, h]

/-- Witness for C3 amended at the concrete counterexample document. -/
theorem c3_no_services_short_circuit_witness :
    Compose.analyze_compose (Yaml.map [("version", Yaml.str "3")]) =
      Except.ok ([Compose.versionIssue] ++ [Compose.noServicesIssue]) := by
  have := c3_no_services_short_circuit [("version", Yaml.str "3")] rfl
  simpa using this

/-- C4 counterexample.  A chart directory whose `Chart.yaml` is malformed
does not abort: the parse failure becomes an error diagnostic and the run
continues into the templates and values validators, producing further
diagnostics alongside the parse failure. -/
theorem c4_counterexample :
    Chart.run_chart ⟨some (Except.error "mapping values are not allowed here"), false, none, false, none⟩ =
      Except.ok [Chart.chartInvalidIssue "mapping values are not allowed here",
        Chart.templatesMissingIssue, Chart.valuesMissingIssue] := rfl

/-- C4 amended.  For the Compose tool, malformed YAML is caught in `main`:
the parser detail is reported, exit code 1, and no rule runs.  For the Chart
tool, a malformed `Chart.yaml` is instead converted into an error diagnostic
by `validate_chart_yaml` and the run continues into the templates and values
validators, whose diagnostics are appended to the same report. -/
theorem c4_parse_error_handling (e : String) (d : Chart.ChartDir) (l : List Chart.Issue)
    (hd : d.chartYaml = some (Except.error e))
    (hv : Chart.validate_values d = Except.ok l) :
    Compose.compose_run (Except.error e) = Compose.Outcome.parseFailure e ∧
    Chart.run_chart d =
      Except.ok ([Chart.chartInvalidIssue e] ++ Chart.validate_templates d ++ l) := by
  refine ⟨rfl, ?_⟩
  simp [Chart.run_chart, Chart.validate_chart_yaml, hd, hv]

/-- Witness for C4 amended at a concrete malformed chart directory. -/
theorem c4_parse_error_handling_witness :
    Compose.compose_run (Except.error "bad yaml") = Compose.Outcome.parseFailure "bad yaml" ∧
    Chart.run_chart ⟨some (Except.error "bad yaml"), true, some "spec: \x7b\x7b- include \"bjw-s.common.loader.all\" . \x7d\x7d", true, none⟩ =
      Except.ok ([Chart.chartInvalidIssue "bad yaml"]
        ++ Chart.validate_templates ⟨some (Except.error "bad yaml"), true, some "spec: \x7b\x7b- include \"bjw-s.common.loader.all\" . \x7d\x7d", true, none⟩
        ++ [Chart.valuesMissingIssue]) :=
  c4_parse_error_handling "bad yaml" _ _ rfl rfl


/-- C6.  A chart directory with no `Chart.yaml` gets exactly one error
diagnostic located at `Chart.yaml` from `validate_chart_yaml`, and the run
still proceeds to the templates and values validators; when those targets are
also absent each contributes its own missing-file error to the same report. -/
theorem c6_missing_chart_yaml (d : Chart.ChartDir) (hc : d.chartYaml = none) :
    Chart.validate_chart_yaml d = Except.ok [Chart.chartMissingIssue] ∧
    (d.templatesDirExists = false → d.valuesYaml = none →
      Chart.run_chart d =
        Except.ok [Chart.chartMissingIssue, Chart.templatesMissingIssue, Chart.valuesMissingIssue]) := by
  have h1 : Chart.validate_chart_yaml d = Except.ok [Chart.chartMissingIssue] := by
    simp [Chart.validate_chart_yaml, hc]
  refine ⟨h1, fun ht hv => ?_⟩
  simp [Chart.run_chart, h1, Chart.validate_templates, ht, Chart.validate_values, hv]

/-- Witness for C6 at the empty chart directory. -/
theorem c6_missing_chart_yaml_witness :
    Chart.run_chart ⟨none, false, none, false, none⟩ =
      Except.ok [Chart.chartMissingIssue, Chart.templatesMissingIssue, Chart.valuesMissingIssue] :=
  (c6_missing_chart_yaml ⟨none, false, none, false, none⟩ rfl).2 rfl rfl

/-- C7 counterexample.  The Dockerfile `# syntax=docker/dockerfile:1`,
`FROM python`, `USER appuser` has an untagged base-image reference on line 2,
yet the analysis reports nothing at all: untagged references are not
detected by the Dockerfile tool, contradicting the claim. -/
theorem c7_counterexample :
    Dockerfile.analyze_dockerfile "# syntax=docker/dockerfile:1\nFROM python\nUSER appuser" = [] := by
  decide

/-- Helper for C7: when the stripped line matches the `:latest` pattern and is
not a comment, the per-line loop emits the floating-tag error for that line. -/
theorem latest_mem_lineIssues (lines : List String) (i : Nat) (l : String)
    (hm : Dockerfile.matchFromLatest (pyStrip l) = true)
    (hc : pyStartsWith (pyStrip l) "#" = false) :
    Dockerfile.latestIssue i ∈ Dockerfile.lineIssues lines i l := by
  have hne : (pyStrip l == "") = false := by
    cases hb : (pyStrip l == "")
    · rfl
    · rw [eq_of_beq hb] at hm
      exact absurd hm (by decide)
  unfold Dockerfile.lineIssues
  rw [if_neg (by simp [hne, hc])]
  simp [mem_maybeIss, hm]

/-- Helper: an issue produced by the loop body for the line at 0-based offset
`k` of `rest` (whose first line is numbered `i`) is in the loop's output. -/
theorem mem_loopFrom_of_get (lines : List String) (x : Dockerfile.Issue) (rest : List String) :
    ∀ (i k : Nat) (l : String), rest.get? k = some l →
      x ∈ Dockerfile.lineIssues lines (i + k) l → x ∈ Dockerfile.loopFrom lines i rest := by
  induction rest with
  | nil => intro i k l h; simp at h
  | cons hd tl ih =>
    intro i k l hget hmem
    rcases k with _ | k
    · have : hd = l := by simpa using hget
      subst this
      exact List.mem_append_left _ (by simpa using hmem)
    · have hget' : tl.get? k = some l := by simpa using hget
      refine List.mem_append_right _ (ih (i + 1) k l hget' ?_)
      rw [show i + 1 + k = i + (k + 1) by omega]
      exact hmem

/-- C7 amended.  Every non-comment line whose stripped text matches
`FROM\s+[word chars]+:latest` (case-insensitively) receives the
`Using :latest tag` error at its line number; untagged `FROM` references are
not reported by the Dockerfile tool (see the counterexample). -/
theorem c7_latest_tag_reported (lines : List String) (j : Nat) (line : String)
    (hget : lines.get? j = some line)
    (hmatch : Dockerfile.matchFromLatest (pyStrip line) = true)
    (hcomment : pyStartsWith (pyStrip line) "#" = false) :
    Dockerfile.latestIssue (j + 1) ∈ Dockerfile.analyzeLines lines := by
  have h1 : Dockerfile.latestIssue (j + 1) ∈ Dockerfile.lineIssues lines (1 + j) line := by
    rw [Nat.add_comm]
    exact latest_mem_lineIssues lines (j + 1) line hmatch hcomment
  have h2 := mem_loopFrom_of_get lines _ lines 1 j line hget h1
  unfold Dockerfile.analyzeLines
  exact List.mem_append_left _ (List.mem_append_right _ h2)

/-- Witness for C7 amended at a one-line Dockerfile. -/
theorem c7_latest_tag_reported_witness :
    Dockerfile.latestIssue 1 ∈ Dockerfile.analyzeLines ["FROM python:latest"] :=
  c7_latest_tag_reported ["FROM python:latest"] 0 "FROM python:latest" rfl (by decide) (by decide)


/-- Helper for C8: the missing-cleanup warning for line number `n` appears in
the loop body's output for a line numbered `i` exactly when `n = i` and the
apt-cleanup branch fires on that line. -/
theorem apt_mem_lineIssues (lines : List String) (i n : Nat) (l : String) :
    Dockerfile.aptCleanupIssue n ∈ Dockerfile.lineIssues lines i l ↔
      n = i ∧ Dockerfile.aptFires lines i l := by
  unfold Dockerfile.lineIssues Dockerfile.aptFires
  by_cases hg1 : (pyStrip l == "") = true
  · rw [if_pos (by simp [hg1])]
    rw [eq_of_beq hg1]
    simp
  · have hg1' : (pyStrip l == "") = false := by simpa using hg1
    by_cases hg2 : pyStartsWith (pyStrip l) "#" = true
    · rw [if_pos (by simp [hg2])]
      simp [hg2]
    · have hg2' : pyStartsWith (pyStrip l) "#" = false := by simpa using hg2
      rw [if_neg (by simp [hg1', hg2'])]
      rcases hos : Dockerfile.searchOs (pyStrip l).data with _ | m <;>
      rcases huid : Dockerfile.uidMatch (pyStrip l) with _ | u <;>
      rcases hgid : Dockerfile.gidMatch (pyStrip l) with _ | g <;>
      · simp only [hos, huid, hgid, List.mem_append, mem_maybeIss, mem_iteList,
          List.mem_singleton, List.not_mem_nil]
        simp [Dockerfile.aptCleanupIssue, Dockerfile.addIssue, Dockerfile.latestIssue,
          Dockerfile.argEnvIssue, Dockerfile.pipCacheIssue, Dockerfile.npmCacheIssue,
          Dockerfile.aptCacheIssue, Dockerfile.runCdIssue, Dockerfile.osIssue,
          Dockerfile.uidIssue, Dockerfile.gidIssue, Dockerfile.noUidIssue,
          Dockerfile.userRootIssue, Dockerfile.Issue.mk.injEq, hg1', hg2']
        tauto

/-- Helper for C8: position characterization of the missing-cleanup warning
in the whole per-line loop. -/
theorem apt_mem_loopFrom (lines : List String) (n : Nat) (rest : List String) :
    ∀ i : Nat, (Dockerfile.aptCleanupIssue n ∈ Dockerfile.loopFrom lines i rest ↔
      ∃ k l, rest.get? k = some l ∧ n = i + k ∧ Dockerfile.aptFires lines n l) := by
  induction rest with
  | nil => intro i; simp [Dockerfile.loopFrom]
  | cons hd tl ih =>
    intro i
    simp only [Dockerfile.loopFrom, List.mem_append]
    rw [apt_mem_lineIssues, ih (i + 1)]
    constructor
    · rintro (⟨hn, hf⟩ | ⟨k, l, hget, hn, hf⟩)
      · subst hn
        exact ⟨0, hd, rfl, by omega, hf⟩
      · exact ⟨k + 1, l, by simpa using hget, by omega, hf⟩
    · rintro ⟨k, l, hget, hn, hf⟩
      rcases k with _ | k
      · left
        have hl : hd = l := by simpa using hget
        subst hl
        have hn' : n = i := by omega
        subst hn'
        exact ⟨rfl, hf⟩
      · right
        exact ⟨k, l, by simpa using hget, by omega, hf⟩

/-- C8.  For a non-comment line (0-based index `j`, 1-based number `j+1`)
whose stripped text mentions `apt-get install`, the missing-cleanup warning at
line `j+1` is produced if and only if the cleanup command occurs neither on
the line itself nor on any of the ten following lines (the fixed look-ahead
window). -/
theorem c8_apt_cleanup_window (lines : List String) (j : Nat) (line : String)
    (hget : lines.get? j = some line)
    (hinstall : strContains (pyStrip line) "apt-get install" = true)
    (hcomment : pyStartsWith (pyStrip line) "#" = false) :
    (Dockerfile.aptCleanupIssue (j + 1) ∈ Dockerfile.analyzeLines lines ↔
      (strContains (pyStrip line) Dockerfile.cleanupPat = false ∧
       Dockerfile.windowClean lines (j + 1) = false)) := by
  have hne : (pyStrip line == "") = false := by
    cases hb : (pyStrip line == "")
    · rfl
    · rw [eq_of_beq hb] at hinstall
      exact absurd hinstall (by decide)
  unfold Dockerfile.analyzeLines
  rw [List.mem_append, List.mem_append]
  have h1 : Dockerfile.aptCleanupIssue (j + 1) ∉
      Dockerfile.maybeIss (!pyStartsWith (pyStrip (lines.headD "")) "# syntax=") Dockerfile.directiveIssue := by
    simp [mem_maybeIss, Dockerfile.aptCleanupIssue, Dockerfile.directiveIssue]
  have h3 : Dockerfile.aptCleanupIssue (j + 1) ∉
      Dockerfile.maybeIss (!Dockerfile.hasNonRootUser lines) (Dockerfile.noUserIssue lines.length) := by
    simp [mem_maybeIss, Dockerfile.aptCleanupIssue, Dockerfile.noUserIssue]
  rw [apt_mem_loopFrom]
  constructor
  · rintro ((ha | hb) | hc)
    · exact absurd ha h1
    · obtain ⟨k, l, hg, hn, hf⟩ := hb
      have hk : k = j := by omega
      subst hk
      rw [hget] at hg
      injection hg with hl
      subst hl
      exact ⟨hf.2.2.2.1, hf.2.2.2.2⟩
    · exact absurd hc h3
  · rintro ⟨hcl, hw⟩
    left; right
    exact ⟨j, line, hget, by omega, ⟨hne, hcomment, hinstall, hcl, hw⟩⟩

/-- Witness for C8 at a one-line Dockerfile with an uncleaned install. -/
theorem c8_apt_cleanup_window_witness :
    Dockerfile.aptCleanupIssue 1 ∈ Dockerfile.analyzeLines ["RUN apt-get install -y curl"] :=
  (c8_apt_cleanup_window ["RUN apt-get install -y curl"] 0 "RUN apt-get install -y curl"
    rfl (by decide) (by decide)).mpr ⟨by decide, by decide⟩

/-- Helper for C10: the per-line loop never emits the whole-document
no-non-root-USER warning. -/
theorem noUser_notin_lineIssues (lines : List String) (i n : Nat) (l : String) :
    Dockerfile.noUserIssue n ∉ Dockerfile.lineIssues lines i l := by
  unfold Dockerfile.lineIssues
  by_cases hg : ((pyStrip l == "") || pyStartsWith (pyStrip l) "#") = true
  · rw [if_pos hg]; simp
  · rw [if_neg hg]
    rcases hos : Dockerfile.searchOs (pyStrip l).data with _ | m <;>
    rcases huid : Dockerfile.uidMatch (pyStrip l) with _ | u <;>
    rcases hgid : Dockerfile.gidMatch (pyStrip l) with _ | g <;>
    · simp only [hos, huid, hgid, List.mem_append, mem_maybeIss, mem_iteList,
        List.mem_singleton, List.not_mem_nil]
      simp [Dockerfile.noUserIssue, Dockerfile.addIssue, Dockerfile.latestIssue,
        Dockerfile.aptCleanupIssue, Dockerfile.argEnvIssue, Dockerfile.pipCacheIssue,
        Dockerfile.npmCacheIssue, Dockerfile.aptCacheIssue, Dockerfile.runCdIssue,
        Dockerfile.osIssue, Dockerfile.uidIssue, Dockerfile.gidIssue,
        Dockerfile.noUidIssue, Dockerfile.userRootIssue, Dockerfile.Issue.mk.injEq]

/-- Helper for C10: lifted to the whole loop. -/
theorem noUser_notin_loopFrom (lines : List String) (n : Nat) (rest : List String) :
    ∀ i : Nat, Dockerfile.noUserIssue n ∉ Dockerfile.loopFrom lines i rest := by
  induction rest with
  | nil => intro i; simp [Dockerfile.loopFrom]
  | cons hd tl ih =>
    intro i
    simp only [Dockerfile.loopFrom, List.mem_append]
    rintro (h | h)
    · exact noUser_notin_lineIssues lines i n hd h
    · exact ih (i + 1) h

/-- C10.  The whole-document `No non-root USER defined` warning, located at
the last line, appears exactly when no line both starts (after stripping)
with `USER ` and avoids the substring `root` case-insensitively; in
particular the one-line Dockerfile `USER nonroot` still receives it, since
`nonroot` contains `root`. -/
theorem c10_no_nonroot_user_iff (content : String) :
    (Dockerfile.noUserIssue (pyLines content).length ∈ Dockerfile.analyze_dockerfile content ↔
      ¬ ∃ l ∈ pyLines content,
          pyStartsWith (pyStrip l) "USER " = true ∧ strContains (pyLower l) "root" = false) ∧
    Dockerfile.noUserIssue 1 ∈ Dockerfile.analyze_dockerfile "USER nonroot" := by
  constructor
  · unfold Dockerfile.analyze_dockerfile Dockerfile.analyzeLines
    rw [List.mem_append, List.mem_append]
    have h1 : Dockerfile.noUserIssue (pyLines content).length ∉
        Dockerfile.maybeIss (!pyStartsWith (pyStrip ((pyLines content).headD "")) "# syntax=")
          Dockerfile.directiveIssue := by
      simp [mem_maybeIss, Dockerfile.noUserIssue, Dockerfile.directiveIssue]
    have h2 := noUser_notin_loopFrom (pyLines content) (pyLines content).length (pyLines content) 1
    constructor
    · rintro ((h | h) | h)
      · exact absurd h h1
      · exact absurd h h2
      · rw [mem_maybeIss] at h
        obtain ⟨hc, _⟩ := h
        simp only [Bool.not_eq_true', Dockerfile.hasNonRootUser, List.any_eq_false] at hc
        rintro ⟨l, hl, hsw, hct⟩
        have := hc l hl
        simp [hsw, hct] at this
    · intro hno
      right
      rw [mem_maybeIss]
      refine ⟨?_, rfl⟩
      simp only [Bool.not_eq_true', Dockerfile.hasNonRootUser, List.any_eq_false]
      intro l hl
      by_contra hcon
      simp only [Bool.not_eq_false, Bool.and_eq_true, Bool.not_eq_true'] at hcon
      exact hno ⟨l, hl, hcon.1, hcon.2⟩
  · decide

/-- Helper for C9: the per-entry secret check on a string-valued variable. -/
theorem envItem_single (k v : String) :
    Compose.envItemIssues "services.app" (k, Yaml.str v) =
      Except.ok (if Compose.secretName k && (v != "") && !pyStartsWith v "$"
        then [Compose.secretEnvIssue k] else []) := by
  unfold Compose.envItemIssues
  by_cases hs : Compose.secretName k
  · by_cases hv : (v != "") = true
    · by_cases hd : pyStartsWith v "$" = true
      · simp [hs, hv, hd, pyTruthy]
      · have hd' : pyStartsWith v "$" = false := by simpa using hd
        simp [hs, hv, hd', pyTruthy, Compose.secretEnvIssue]
    · have hv' : (v != "") = false := by simpa using hv
      simp [hs, hv', pyTruthy]
  · have hs' : Compose.secretName k = false := by simpa using hs
    simp [hs']

/-- Helper for C9: the service loop body on the `app` service of `envDoc`. -/
theorem serviceIssues_envApp (k v : String) :
    Compose.serviceIssues "app" (Yaml.map [("environment", Yaml.map [(k, Yaml.str v)])]) =
      Except.ok ([Compose.hcIssueApp, Compose.rsIssueApp] ++
        (if Compose.secretName k && (v != "") && !pyStartsWith v "$"
          then [Compose.secretEnvIssue k] else []) ++ [Compose.resIssueApp]) := by
  unfold Compose.serviceIssues
  simp only [pyIn, pyGetItem, pyGet, pyGetD, ok_bind, pure_ok]
  simp only [List.any_cons, List.any_nil, List.find?]
  simp
  simp [collectM, envItem_single, Compose.hcIssueApp, Compose.rsIssueApp, Compose.resIssueApp]

/-- Helper for C9: the full analysis of `envDoc k v`. -/
theorem analyze_envDoc (k v : String) :
    Compose.analyze_compose (Compose.envDoc k v) =
      Except.ok ([Compose.hcIssueApp, Compose.rsIssueApp] ++
        (if Compose.secretName k && (v != "") && !pyStartsWith v "$"
          then [Compose.secretEnvIssue k] else []) ++ [Compose.resIssueApp]) := by
  unfold Compose.analyze_compose Compose.envDoc
  simp only [pyIn, pyGetItem, pyItems, ok_bind, pure_ok]
  simp only [List.any_cons, List.any_nil, List.find?]
  simp [collectM, serviceIssues_envApp, Compose.volumesIssues, pyIn]

/-- C9.  For a service environment entry `k: v` with a string value, the
secret-in-environment error for `k` is produced if and only if the upper-cased
name contains one of the secret words and the value is a non-empty string not
starting with `$`; empty or `$`-prefixed values yield no diagnostic. -/
theorem c9_env_secret_condition (k v : String) (issues : List Compose.Issue)
    (h : Compose.analyze_compose (Compose.envDoc k v) = Except.ok issues) :
    Compose.secretEnvIssue k ∈ issues ↔
      (Compose.secretName k = true ∧ v ≠ "" ∧ pyStartsWith v "$" = false) := by
  rw [analyze_envDoc] at h
  injection h with h
  subst h
  by_cases hs : Compose.secretName k
  · by_cases hv : v = ""
    · subst hv
      simp [hs, Compose.secretEnvIssue, Compose.hcIssueApp, Compose.rsIssueApp,
        Compose.resIssueApp, Compose.Issue.mk.injEq]
    · by_cases hd : pyStartsWith v "$" = true
      · simp [hs, hv, hd, Compose.secretEnvIssue, Compose.hcIssueApp, Compose.rsIssueApp,
          Compose.resIssueApp, Compose.Issue.mk.injEq]
      · have hd' : pyStartsWith v "$" = false := by simpa using hd
        simp [hs, hv, hd', Compose.secretEnvIssue, Compose.hcIssueApp, Compose.rsIssueApp,
          Compose.resIssueApp, Compose.Issue.mk.injEq]
  · have hs' : Compose.secretName k = false := by simpa using hs
    simp [hs', Compose.secretEnvIssue, Compose.hcIssueApp, Compose.rsIssueApp,
      Compose.resIssueApp, Compose.Issue.mk.injEq]

/-- Witness for C9 at the secret-shaped variable `DB_PASSWORD` with a
non-empty literal value. -/
theorem c9_env_secret_condition_witness :
    Compose.secretEnvIssue "DB_PASSWORD" ∈
      [Compose.hcIssueApp, Compose.rsIssueApp, Compose.secretEnvIssue "DB_PASSWORD", Compose.resIssueApp] :=
  (c9_env_secret_condition "DB_PASSWORD" "hunter2"
    [Compose.hcIssueApp, Compose.rsIssueApp, Compose.secretEnvIssue "DB_PASSWORD", Compose.resIssueApp]
    rfl).mpr ⟨by decide, by decide, by decide⟩
